import Mathlib

/-!
Verification development for the namespace/schema-location resolution engine
of python-stix (`stix/utils/nsparser.py`).

Python dictionaries are embedded as insertion-ordered association lists over
`String` keys and values (`Dict`).  `aset` mirrors `d[k] = v` (replace in
place if the key exists, else append), `aget` mirrors `d.get(k)`, `adel`
mirrors `del d[k]`, and `updD` mirrors `d.update(other)`.  Python sets of
strings are embedded as duplicate-free lists with `saddl` mirroring `s.add`.

The mutable `NamespaceInfo` object is embedded as a record threaded
explicitly through the operations; exceptions become explicit error values
(`DuplicatePrefixError` for the prefix-conflict exception of the source,
`FinalizeErr.keyError` for unhandled Python `KeyError`s raised by unguarded
dictionary indexing).
-/

set_option autoImplicit false
set_option maxRecDepth 8192

abbrev Dict := List (String × String)

/-- `d.get(k)`: first binding of `k`, if any (keys of real dicts are unique). -/
def aget : Dict → String → Option String
  | [], _ => none
  | (k, v) :: rest, key => if k = key then some v else aget rest key

/-- `d[k] = v`: replace the value in place if the key exists, else append. -/
def aset : Dict → String → String → Dict
  | [], key, val => [(key, val)]
  | (k, v) :: rest, key, val =>
      if k = key then (k, val) :: rest else (k, v) :: aset rest key val

/-- `del d[k]` on a dict (keys unique): drop the binding of `k`. -/
def adel : Dict → String → Dict
  | [], _ => []
  | (k, v) :: rest, key => if k = key then rest else (k, v) :: adel rest key

/-- `d.update(other)`: right-biased bulk insert, in `other`'s order. -/
def updD (m other : Dict) : Dict :=
  other.foldl (fun acc kv => aset acc kv.1 kv.2) m

/-- `d.keys()` in insertion order. -/
def keysOf (m : Dict) : List String := m.map Prod.fst

/-- `k in d` membership test. -/
def hasKey (m : Dict) (k : String) : Bool := (aget m k).isSome

/-- `s.add(x)` on a Python set embedded as a duplicate-free list. -/
def saddl (l : List String) (x : String) : List String :=
  if x ∈ l then l else l ++ [x]

/-- Lexicographic comparison of strings by code point (Python 2's byte-wise
string order, for the ASCII strings appearing here), on the char lists. -/
def strLtB : List Char → List Char → Bool
  | [], [] => false
  | [], _ :: _ => true
  | _ :: _, [] => false
  | c1 :: r1, c2 :: r2 =>
      if c1.toNat < c2.toNat then true
      else if c2.toNat < c1.toNat then false
      else strLtB r1 r2

def strLt (a b : String) : Bool := strLtB a.data b.data

def strLe (a b : String) : Bool := strLt a b || a == b

/-- Python tuple ordering on string pairs, used by `sorted(d.iteritems())`. -/
def pairLe (a b : String × String) : Bool :=
  strLt a.1 b.1 || (a.1 == b.1 && strLe a.2 b.2)

def insSorted (x : String × String) : List (String × String) → List (String × String)
  | [] => [x]
  | y :: ys => if pairLe x y then x :: y :: ys else y :: insSorted x ys

/-- `sorted(d.iteritems())`: ascending by key (then value). -/
def sortPairs (l : List (String × String)) : List (String × String) :=
  l.foldr insSorted []

/-- A collected Python class, as inspected by `_parse_collected_classes`:
whether it is a `stix.Entity`/`cybox.Entity` subclass, and its optional
class-level `_namespace`, `_XSI_NS` and `_XSI_TYPE` attributes
(`none` models an absent attribute, `some ""` a falsy empty string). -/
structure Klass where
  isEntitySubclass : Bool
  _namespace : Option String
  _XSI_NS : Option String
  _XSI_TYPE : Option String
deriving DecidableEq

/-- An entity instance fed to `NamespaceInfo.collect`: its MRO (the classes
added to `_collected_classes`) and the optional `__input_namespaces__` /
`__input_schemalocations__` attributes carried by parsed entities. -/
structure Entity where
  mro : List Klass
  __input_namespaces__ : Option Dict
  __input_schemalocations__ : Option Dict

/-- The exception raised by `NamespaceInfo._check_namespace_alias`.  The
source constructor executes `self.source_ns = source_ns,` — note the
trailing comma — so the `source_ns` attribute holds a 1-tuple containing
the existing namespace, embedded here as a singleton list; `dest_ns`
holds the new namespace directly.  (The formatted message string of the
source is not modelled; it is determined by these three fields.) -/
structure DuplicatePrefixError where
  pfx : String
  source_ns : List String
  dest_ns : String
deriving DecidableEq

/-- Errors that can escape `NamespaceInfo.finalize`: the prefix-conflict
exception, or an unhandled Python `KeyError` from unguarded indexing
(`keyError none` for `self._collected_namespaces[None]` after the `None`
key was popped, `keyError (some ns)` for `DEFAULT_STIX_NAMESPACES[ns]`). -/
inductive FinalizeErr where
  | dup (e : DuplicatePrefixError)
  | keyError (key : Option String)
deriving DecidableEq

/-- State of a `NamespaceInfo` registry.  `_collected_namespaces` is split
into its aliased entries and the special `None`-keyed bucket
(`collected_no_alias`, `none` once popped by `_finalize_namespaces`). -/
structure NamespaceInfo where
  collected_namespaces : Dict
  collected_no_alias : Option (List String)
  input_namespaces : Dict
  input_schemalocs : Dict
  collected_classes : List Klass
  finalized_namespaces : Option Dict
  finalized_schemalocs : Option Dict
deriving DecidableEq

/-- `NamespaceInfo.__init__`. -/
def NamespaceInfo.init : NamespaceInfo :=
  { collected_namespaces := []
    collected_no_alias := some []
    input_namespaces := []
    input_schemalocs := []
    collected_classes := []
    finalized_namespaces := none
    finalized_schemalocs := none }

/-- `NamespaceInfo.update(ns_info)`: dict-update the collected namespaces
(the `None` key, when present in the argument, replaces the receiver's
bucket wholesale), the input namespaces and the input schemalocations.
`_collected_classes` and the finalized maps are not touched. -/
def NamespaceInfo.update (s o : NamespaceInfo) : NamespaceInfo :=
  { s with
    collected_namespaces := updD s.collected_namespaces o.collected_namespaces
    collected_no_alias :=
      match o.collected_no_alias with
      | some b => some b
      | none => s.collected_no_alias
    input_namespaces := updD s.input_namespaces o.input_namespaces
    input_schemalocs := updD s.input_schemalocs o.input_schemalocs }

/-- `NamespaceInfo.collect(entity)`. -/
def NamespaceInfo.collect (s : NamespaceInfo) (entity : Entity) : NamespaceInfo :=
  { s with
    collected_classes := entity.mro.foldl (fun acc k => if k ∈ acc then acc else acc ++ [k]) s.collected_classes
    input_namespaces :=
      match entity.__input_namespaces__ with
      | some d => updD s.input_namespaces d
      | none => s.input_namespaces
    input_schemalocs :=
      match entity.__input_schemalocations__ with
      | some d => updD s.input_schemalocs d
      | none => s.input_schemalocs }

/-- Python truthiness of an optional string attribute (`None` and `""` are falsy). -/
def falsyS : Option String → Bool
  | none => true
  | some s => s == ""

/-- The `_XSI_TYPE` branch of the per-class loop in `_parse_collected_classes`:
split the qname on `":"`; two parts bind the first part as alias, anything
else sends the namespace to the no-alias bucket. -/
def parseXsiType (acc : Dict × List String) (ns : String) (klass : Klass) :
    Dict × List String :=
  if falsyS klass._XSI_TYPE then (acc.1, saddl acc.2 ns)
  else
    match (klass._XSI_TYPE.getD "").splitOn ":" with
    | [p, _] => (aset acc.1 p ns, acc.2)
    | _ => (acc.1, saddl acc.2 ns)

/-- One iteration of the class loop in `_parse_collected_classes`. -/
def parseClassStep (acc : Dict × List String) (klass : Klass) : Dict × List String :=
  if ¬ klass.isEntitySubclass then acc
  else if falsyS klass._namespace then acc
  else
    let ns := klass._namespace.getD ""
    if falsyS klass._XSI_NS then parseXsiType acc ns klass
    else (aset acc.1 (klass._XSI_NS.getD "") ns, acc.2)

/-- `NamespaceInfo._parse_collected_classes`.  The source binds
`no_alias = self._collected_namespaces[None].add` by unguarded indexing
before the loop, so when the `None` key has been popped (by a previous
`_finalize_namespaces`) the call raises `KeyError(None)` without mutating
any state. -/
def NamespaceInfo._parse_collected_classes (s : NamespaceInfo) :
    Except FinalizeErr NamespaceInfo :=
  match s.collected_no_alias with
  | none => .error (.keyError none)
  | some bucket =>
      let r := s.collected_classes.foldl parseClassStep (s.collected_namespaces, bucket)
      .ok { s with collected_namespaces := r.1, collected_no_alias := some r.2 }

/-- `NamespaceInfo._fix_example_namespace(ns_dict, input_namespaces)`:
returns the (possibly) mutated `input_namespaces`.  The deletion fires only
when `input_namespaces.get('http://example.com/') == 'example'` and
`ns_dict.get('http://example.com') == 'example'` both hold. -/
def NamespaceInfo._fix_example_namespace (ns_dict input_namespaces : Dict) : Dict :=
  let sample_ns := "http://example.com/"
  let api_ns := "http://example.com"
  let pfx := "example"
  if aget input_namespaces sample_ns == some pfx && aget ns_dict api_ns == some pfx then
    adel input_namespaces sample_ns
  else input_namespaces

/-- `NamespaceInfo._check_namespace_alias(ns_dict, prefix, namespace)`:
`none` when the mapping is absent or already identical, otherwise the
`DuplicatePrefixError` the source raises. -/
def NamespaceInfo._check_namespace_alias (ns_dict : Dict) (pfx ns : String) :
    Option DuplicatePrefixError :=
  match aget ns_dict pfx with
  | none => none
  | some current_ns =>
      if current_ns = ns then none
      else some { pfx := pfx, source_ns := [current_ns], dest_ns := ns }

/-- The input-namespace loop of `_finalize_namespaces`: skip namespaces in
`DEFAULT_STIX_NAMESPACES_TUPLE`, otherwise check-and-insert. -/
def inputLoop (defaults_keys : List String) (d_ns : Dict) :
    Dict → Except DuplicatePrefixError Dict
  | [] => .ok d_ns
  | (al, ns) :: rest =>
      if ns ∈ defaults_keys then inputLoop defaults_keys d_ns rest
      else
        match NamespaceInfo._check_namespace_alias d_ns al ns with
        | some e => .error e
        | none => inputLoop defaults_keys (aset d_ns al ns) rest

/-- The no-alias loop of `_finalize_namespaces`: the alias is looked up by
unguarded indexing `DEFAULT_STIX_NAMESPACES[ns]`, so a namespace absent
from the default table raises `KeyError(ns)`. -/
def noAliasLoop (table : Dict) (d_ns : Dict) :
    List String → Except FinalizeErr Dict
  | [] => .ok d_ns
  | ns :: rest =>
      match aget table ns with
      | none => .error (.keyError (some ns))
      | some al =>
          match NamespaceInfo._check_namespace_alias d_ns al ns with
          | some e => .error (.dup e)
          | none => noAliasLoop table (aset d_ns al ns) rest

/-- A plain check-and-insert loop over prefix/namespace pairs (used for the
collected-namespace loop and the final overlay of `_finalize_namespaces`). -/
def checkInsertFold (d_ns : Dict) : Dict → Except DuplicatePrefixError Dict
  | [] => .ok d_ns
  | (al, ns) :: rest =>
      match NamespaceInfo._check_namespace_alias d_ns al ns with
      | some e => .error e
      | none => checkInsertFold (aset d_ns al ns) rest

/-- `NamespaceInfo._BASELINE_NAMESPACES` (prefix to namespace). -/
def _BASELINE_NAMESPACES : Dict :=
  [("xsi", "http://www.w3.org/2001/XMLSchema-instance"),
   ("stix", "http://stix.mitre.org/stix-1"),
   ("stixCommon", "http://stix.mitre.org/common-1"),
   ("stixVocabs", "http://stix.mitre.org/default_vocabularies-1"),
   ("cybox", "http://cybox.mitre.org/cybox-2"),
   ("cyboxCommon", "http://cybox.mitre.org/common-2"),
   ("cyboxVocabs", "http://cybox.mitre.org/default_vocabularies-2")]

/-- `XML_NAMESPACES` (namespace to prefix). -/
def XML_NAMESPACES : Dict :=
  [("http://www.w3.org/2001/XMLSchema-instance", "xsi"),
   ("http://www.w3.org/2001/XMLSchema", "xs"),
   ("http://www.w3.org/1999/xlink", "xlink"),
   ("http://www.w3.org/2000/09/xmldsig#", "ds")]

/-- The external collaborators of the registry: the document-identifier
pair supplied by `idgen.get_id_namespace_alias()` / `idgen.get_id_namespace()`,
and the module-level default tables `DEFAULT_STIX_NAMESPACES` (namespace to
prefix; its key tuple is `DEFAULT_STIX_NAMESPACES_TUPLE`) and
`DEFAULT_STIX_SCHEMALOCATIONS`, whose final values also incorporate data
from the external `cybox` (and optionally `maec`) packages. -/
structure Externals where
  id_ns_alias : String
  id_ns : String
  DEFAULT_STIX_NAMESPACES : Dict
  DEFAULT_STIX_SCHEMALOCATIONS : Dict

/-- `NamespaceInfo._finalize_namespaces(ns_dict)`.  Returns the post-call
state (the source mutates `self._input_namespaces` via
`_fix_example_namespace` and pops the `None` key of
`self._collected_namespaces`) together with the computed map or the raised
error.  The caller-supplied `ns_dict` maps namespaces to aliases and is
inverted on entry. -/
def NamespaceInfo._finalize_namespaces (env : Externals) (s : NamespaceInfo)
    (ns_dict0 : Option Dict) : NamespaceInfo × Except FinalizeErr Dict :=
  let ns_dict : Dict := (ns_dict0.getD []).foldl (fun acc kv => aset acc kv.2 kv.1) []
  let d_ns := aset _BASELINE_NAMESPACES env.id_ns_alias env.id_ns
  let input1 := NamespaceInfo._fix_example_namespace d_ns s.input_namespaces
  let s1 : NamespaceInfo := { s with input_namespaces := input1 }
  match inputLoop (keysOf env.DEFAULT_STIX_NAMESPACES) d_ns input1 with
  | .error e => (s1, .error (.dup e))
  | .ok d2 =>
      let bucket := s1.collected_no_alias.getD []
      let s2 : NamespaceInfo := { s1 with collected_no_alias := none }
      match noAliasLoop env.DEFAULT_STIX_NAMESPACES d2 bucket with
      | .error e => (s2, .error e)
      | .ok d3 =>
          match checkInsertFold d3 s2.collected_namespaces with
          | .error e => (s2, .error (.dup e))
          | .ok d4 =>
              match checkInsertFold ns_dict d4 with
              | .error e => (s2, .error (.dup e))
              | .ok final => (s2, .ok final)

/-- `NamespaceInfo._finalize_schemalocs(schemaloc_dict)`.  The final loop of
the source iterates `self.finalized_namespaces.iterkeys()`; `warnings.warn`
is a pure diagnostic and is not modelled. -/
def NamespaceInfo._finalize_schemalocs (env : Externals) (s : NamespaceInfo)
    (schemaloc_dict0 : Option Dict) : Dict :=
  let base := schemaloc_dict0.getD []
  let base1 := s.input_schemalocs.foldl
    (fun acc kv => if hasKey acc kv.1 then acc else aset acc kv.1 kv.2) base
  let finkeys := keysOf ((s.finalized_namespaces).getD [])
  finkeys.foldl
    (fun acc ns =>
      match aget env.DEFAULT_STIX_SCHEMALOCATIONS ns with
      | some loc => aset acc ns loc
      | none =>
          if hasKey acc ns then acc
          else if ns == env.id_ns || hasKey XML_NAMESPACES ns then acc
          else acc)
    base1

/-- `NamespaceInfo.finalize(ns_dict, schemaloc_dict)`: parse the collected
classes, compute and publish the finalized namespaces, then compute and
publish the finalized schemalocations.  Returns the post-call state and
the escaped exception, if any. -/
def NamespaceInfo.finalize (env : Externals) (s : NamespaceInfo)
    (ns_dict0 schemaloc_dict0 : Option Dict) : NamespaceInfo × Option FinalizeErr :=
  match NamespaceInfo._parse_collected_classes s with
  | .error e => (s, some e)
  | .ok s1 =>
      match NamespaceInfo._finalize_namespaces env s1 ns_dict0 with
      | (s2, .error e) => (s2, some e)
      | (s2, .ok ns_final) =>
          let s3 : NamespaceInfo := { s2 with finalized_namespaces := some ns_final }
          let locs := NamespaceInfo._finalize_schemalocs env s3 schemaloc_dict0
          ({ s3 with finalized_schemalocs := some locs }, none)

/-- `NamespaceParser.get_xmlns_str(ns_dict)`: sort the pairs, then render
each pair `(ns, alias)` as `xmlns:alias="ns"` — note that the generator
destructures each (key, value) pair as `ns, alias`, so the rendered alias
position receives the dictionary's values and the quoted position its keys. -/
def NamespaceParser.get_xmlns_str (ns_dict : Dict) : String :=
  let pairs := sortPairs ns_dict
  String.intercalate "\n\t"
    (pairs.map (fun p => "xmlns:" ++ p.2 ++ "=\"" ++ p.1 ++ "\""))

/-- `NamespaceParser.get_schemaloc_str(schemaloc_dict)`. -/
def NamespaceParser.get_schemaloc_str (schemaloc_dict : Dict) : String :=
  if schemaloc_dict = [] then ""
  else
    let pairs := sortPairs schemaloc_dict
    "xsi:schemaLocation=\"\n\t" ++
      String.intercalate "\n\t" (pairs.map (fun p => p.1 ++ " " ++ p.2)) ++ "\""

/-- `STIX_NS_TO_SCHEMALOCATION` (in-source literal). -/
def STIX_NS_TO_SCHEMALOCATION : Dict :=
  [("http://data-marking.mitre.org/Marking-1", "http://stix.mitre.org/XMLSchema/data_marking/1.1.1/data_marking.xsd"),
   ("http://data-marking.mitre.org/extensions/MarkingStructure#Simple-1", "http://stix.mitre.org/XMLSchema/extensions/marking/simple/1.1.1/simple_marking.xsd"),
   ("http://data-marking.mitre.org/extensions/MarkingStructure#TLP-1", "http://stix.mitre.org/XMLSchema/extensions/marking/tlp/1.1.1/tlp_marking.xsd"),
   ("http://data-marking.mitre.org/extensions/MarkingStructure#Terms_Of_Use-1", "http://stix.mitre.org/XMLSchema/extensions/marking/terms_of_use/1.0.1/terms_of_use_marking.xsd"),
   ("http://stix.mitre.org/Campaign-1", "http://stix.mitre.org/XMLSchema/campaign/1.1.1/campaign.xsd"),
   ("http://stix.mitre.org/CourseOfAction-1", "http://stix.mitre.org/XMLSchema/course_of_action/1.1.1/course_of_action.xsd"),
   ("http://stix.mitre.org/ExploitTarget-1", "http://stix.mitre.org/XMLSchema/exploit_target/1.1.1/exploit_target.xsd"),
   ("http://stix.mitre.org/Incident-1", "http://stix.mitre.org/XMLSchema/incident/1.1.1/incident.xsd"),
   ("http://stix.mitre.org/Indicator-2", "http://stix.mitre.org/XMLSchema/indicator/2.1.1/indicator.xsd"),
   ("http://stix.mitre.org/TTP-1", "http://stix.mitre.org/XMLSchema/ttp/1.1.1/ttp.xsd"),
   ("http://stix.mitre.org/ThreatActor-1", "http://stix.mitre.org/XMLSchema/threat_actor/1.1.1/threat_actor.xsd"),
   ("http://stix.mitre.org/common-1", "http://stix.mitre.org/XMLSchema/common/1.1.1/stix_common.xsd"),
   ("http://stix.mitre.org/default_vocabularies-1", "http://stix.mitre.org/XMLSchema/default_vocabularies/1.1.1/stix_default_vocabularies.xsd"),
   ("http://stix.mitre.org/extensions/AP#CAPEC2.7-1", "http://stix.mitre.org/XMLSchema/extensions/attack_pattern/capec_2.7/1.0.1/capec_2.7_attack_pattern.xsd"),
   ("http://stix.mitre.org/extensions/Address#CIQAddress3.0-1", "http://stix.mitre.org/XMLSchema/extensions/address/ciq_3.0/1.1.1/ciq_3.0_address.xsd"),
   ("http://stix.mitre.org/extensions/Identity#CIQIdentity3.0-1", "http://stix.mitre.org/XMLSchema/extensions/identity/ciq_3.0/1.1.1/ciq_3.0_identity.xsd"),
   ("http://stix.mitre.org/extensions/Malware#MAEC4.1-1", "http://stix.mitre.org/XMLSchema/extensions/malware/maec_4.1/1.0.1/maec_4.1_malware.xsd"),
   ("http://stix.mitre.org/extensions/StructuredCOA#Generic-1", "http://stix.mitre.org/XMLSchema/extensions/structured_coa/generic/1.1.1/generic_structured_coa.xsd"),
   ("http://stix.mitre.org/extensions/TestMechanism#Generic-1", "http://stix.mitre.org/XMLSchema/extensions/test_mechanism/generic/1.1.1/generic_test_mechanism.xsd"),
   ("http://stix.mitre.org/extensions/TestMechanism#OVAL5.10-1", "http://stix.mitre.org/XMLSchema/extensions/test_mechanism/oval_5.10/1.1.1/oval_5.10_test_mechanism.xsd"),
   ("http://stix.mitre.org/extensions/TestMechanism#OpenIOC2010-1", "http://stix.mitre.org/XMLSchema/extensions/test_mechanism/open_ioc_2010/1.1.1/open_ioc_2010_test_mechanism.xsd"),
   ("http://stix.mitre.org/extensions/TestMechanism#Snort-1", "http://stix.mitre.org/XMLSchema/extensions/test_mechanism/snort/1.1.1/snort_test_mechanism.xsd"),
   ("http://stix.mitre.org/extensions/TestMechanism#YARA-1", "http://stix.mitre.org/XMLSchema/extensions/test_mechanism/yara/1.1.1/yara_test_mechanism.xsd"),
   ("http://stix.mitre.org/extensions/Vulnerability#CVRF-1", "http://stix.mitre.org/XMLSchema/extensions/vulnerability/cvrf_1.1/1.1.1/cvrf_1.1_vulnerability.xsd"),
   ("http://stix.mitre.org/stix-1", "http://stix.mitre.org/XMLSchema/core/1.1.1/stix_core.xsd")]

/-- `EXT_NS_TO_SCHEMALOCATION` (in-source literal). -/
def EXT_NS_TO_SCHEMALOCATION : Dict :=
  [("urn:oasis:names:tc:ciq:xal:3", "http://stix.mitre.org/XMLSchema/external/oasis_ciq_3.0/xAL.xsd"),
   ("urn:oasis:names:tc:ciq:xpil:3", "http://stix.mitre.org/XMLSchema/external/oasis_ciq_3.0/xPIL.xsd"),
   ("urn:oasis:names:tc:ciq:xnl:3", "http://stix.mitre.org/XMLSchema/external/oasis_ciq_3.0/xNL.xsd")]

/-- `DEFAULT_STIX_NS_TO_PREFIX` (in-source literal; `PREFIX` abbreviated to
`PFX` in the Lean name). -/
def DEFAULT_STIX_NS_TO_PFX : Dict :=
  [("http://cybox.mitre.org/common-2", "cyboxCommon"),
   ("http://cybox.mitre.org/cybox-2", "cybox"),
   ("http://data-marking.mitre.org/Marking-1", "marking"),
   ("http://data-marking.mitre.org/extensions/MarkingStructure#Simple-1", "simpleMarking"),
   ("http://data-marking.mitre.org/extensions/MarkingStructure#TLP-1", "tlpMarking"),
   ("http://data-marking.mitre.org/extensions/MarkingStructure#Terms_Of_Use-1", "TOUMarking"),
   ("http://stix.mitre.org/Campaign-1", "campaign"),
   ("http://stix.mitre.org/CourseOfAction-1", "coa"),
   ("http://stix.mitre.org/ExploitTarget-1", "et"),
   ("http://stix.mitre.org/Incident-1", "incident"),
   ("http://stix.mitre.org/Indicator-2", "indicator"),
   ("http://stix.mitre.org/TTP-1", "ttp"),
   ("http://stix.mitre.org/ThreatActor-1", "ta"),
   ("http://stix.mitre.org/stix-1", "stix"),
   ("http://stix.mitre.org/common-1", "stixCommon"),
   ("http://stix.mitre.org/default_vocabularies-1", "stixVocabs"),
   ("http://stix.mitre.org/extensions/AP#CAPEC2.7-1", "stix-capec"),
   ("http://stix.mitre.org/extensions/Address#CIQAddress3.0-1", "stix-ciqaddress"),
   ("http://stix.mitre.org/extensions/Identity#CIQIdentity3.0-1", "ciqIdentity"),
   ("http://stix.mitre.org/extensions/Malware#MAEC4.1-1", "stix-maec"),
   ("http://stix.mitre.org/extensions/StructuredCOA#Generic-1", "genericStructuredCOA"),
   ("http://stix.mitre.org/extensions/TestMechanism#Generic-1", "genericTM"),
   ("http://stix.mitre.org/extensions/TestMechanism#OVAL5.10-1", "stix-oval"),
   ("http://stix.mitre.org/extensions/TestMechanism#OpenIOC2010-1", "stix-openioc"),
   ("http://stix.mitre.org/extensions/TestMechanism#Snort-1", "snortTM"),
   ("http://stix.mitre.org/extensions/TestMechanism#YARA-1", "yaraTM"),
   ("http://stix.mitre.org/extensions/Vulnerability#CVRF-1", "stix-cvrf")]

/-- `DEFAULT_EXT_TO_PREFIX` (in-source literal; same `PFX` abbreviation). -/
def DEFAULT_EXT_TO_PFX : Dict :=
  [("http://capec.mitre.org/capec-2", "capec"),
   ("http://maec.mitre.org/XMLSchema/maec-package-2", "maecPackage"),
   ("http://oval.mitre.org/XMLSchema/oval-definitions-5", "oval-def"),
   ("http://oval.mitre.org/XMLSchema/oval-variables-5", "oval-var"),
   ("http://schemas.mandiant.com/2010/ioc", "ioc"),
   ("http://schemas.mandiant.com/2010/ioc/TR/", "ioc-tr"),
   ("http://www.icasi.org/CVRF/schema/cvrf/1.1", "cvrf"),
   ("urn:oasis:names:tc:ciq:xal:3", "xal"),
   ("urn:oasis:names:tc:ciq:xpil:3", "xpil"),
   ("urn:oasis:names:tc:ciq:xnl:3", "xnl")]

/-- `DEFAULT_STIX_NAMESPACES`: `dict(itertools.chain(cybox, xml, stix, ext))`
followed by the optional maec update; the cybox and maec contributions come
from the external `cybox.utils.nsparser.NS_LIST` / `maec.utils.nsparser.NS_LIST`
tables and are parameters here. -/
def mkDEFAULT_STIX_NAMESPACES (cyboxNs maecNs : Dict) : Dict :=
  updD (updD (updD (updD (updD [] cyboxNs) XML_NAMESPACES) DEFAULT_STIX_NS_TO_PFX) DEFAULT_EXT_TO_PFX) maecNs

/-- `DEFAULT_STIX_SCHEMALOCATIONS`: `dict(itertools.chain(stix, ext, cybox))`
followed by the optional maec update; cybox/maec contributions are parameters. -/
def mkDEFAULT_STIX_SCHEMALOCATIONS (cyboxLocs maecLocs : Dict) : Dict :=
  updD (updD (updD (updD [] STIX_NS_TO_SCHEMALOCATION) EXT_NS_TO_SCHEMALOCATION) cyboxLocs) maecLocs

/-- Modelled from the spec: the document-identifier collaborator
(`stix.utils.idgen`, a module of this repository not present under `src/`)
"exposes exactly one namespace URI and one prefix representing the
identifier namespace for the current output document"; python-stix's
default example namespace is `http://example.com` with prefix `example`
(the non-slash form, per the `_fix_example_namespace` docstring).
The default tables are instantiated with the in-source literals and empty
external cybox/maec contributions. -/
def stdEnv : Externals :=
  { id_ns_alias := "example"
    id_ns := "http://example.com"
    DEFAULT_STIX_NAMESPACES := mkDEFAULT_STIX_NAMESPACES [] []
    DEFAULT_STIX_SCHEMALOCATIONS := mkDEFAULT_STIX_SCHEMALOCATIONS [] [] }

/-- Modelled from the spec: ordering on (prefix, namespace) pairs by
namespace URI (then prefix), for the intended rendering order. -/
def specPairLeByNs (a b : String × String) : Bool :=
  strLt a.2 b.2 || (a.2 == b.2 && strLe a.1 b.1)

def specInsSorted (x : String × String) : List (String × String) → List (String × String)
  | [] => [x]
  | y :: ys => if specPairLeByNs x y then x :: y :: ys else y :: specInsSorted x ys

def specSortByNs (l : List (String × String)) : List (String × String) :=
  l.foldr specInsSorted []

/-- Modelled from the spec: render a finalized prefix-to-namespace map as
"prefix declarations sorted by namespace URI, one `prefix="namespace"` pair
per line", i.e. lines of the form `xmlns:prefix="namespace"`. -/
def spec_get_xmlns_str (ns_dict : Dict) : String :=
  String.intercalate "\n\t"
    ((specSortByNs ns_dict).map (fun p => "xmlns:" ++ p.1 ++ "=\"" ++ p.2 ++ "\""))

/-- Registry whose parsed input binds the prefix `stix` to a foreign
namespace, conflicting with the baseline binding of `stix`. -/
def r1c : NamespaceInfo :=
  { NamespaceInfo.init with input_namespaces := [("stix", "http://other.example.org")] }

/-- Registry whose parsed input supplies a schema location for the core
STIX namespace that contradicts the default schema-location table. -/
def r2c : NamespaceInfo :=
  { NamespaceInfo.init with
    input_schemalocs := [("http://stix.mitre.org/stix-1", "http://bogus.example.org/bogus.xsd")] }

/-- Registry whose parsed input declares the slash-terminated example
namespace under the prefix `example` (the prefix the document-identifier
namespace uses for the non-slash form). -/
def r3c : NamespaceInfo :=
  { NamespaceInfo.init with input_namespaces := [("example", "http://example.com/")] }

/-- A collected entity class declaring a home namespace with no explicit
prefix and no two-part qualified name. -/
def k9 : Klass :=
  { isEntitySubclass := true
    _namespace := some "http://custom.example.org/ns"
    _XSI_NS := none
    _XSI_TYPE := none }

/-- Registry that collected only `k9`, whose home namespace is absent from
the default namespace-to-prefix table. -/
def r9 : NamespaceInfo :=
  { NamespaceInfo.init with collected_classes := [k9] }

/-- A visited entity class used to exercise `NamespaceInfo.update`. -/
def K2ex : Klass :=
  { isEntitySubclass := true
    _namespace := some "http://k2.example.org"
    _XSI_NS := none
    _XSI_TYPE := none }

/-- First unfinalized registry for the merge example. -/
def r1ex : NamespaceInfo :=
  { NamespaceInfo.init with collected_no_alias := some ["http://a.example.org"] }

/-- Second unfinalized registry for the merge example: a visited type and a
different unaliased namespace. -/
def r2ex : NamespaceInfo :=
  { NamespaceInfo.init with
    collected_classes := [K2ex]
    collected_no_alias := some ["http://b.example.org"] }

/-- Registry whose parsed input binds the prefix `cybox` to a foreign
namespace, conflicting with the baseline binding of `cybox`. -/
def r6c : NamespaceInfo :=
  { NamespaceInfo.init with input_namespaces := [("cybox", "http://another.example.net")] }

/-- Externals whose document-identifier collaborator reuses the baseline
prefix `stix` for a different namespace. -/
def env10 : Externals :=
  { stdEnv with id_ns_alias := "stix", id_ns := "http://custom.example.org/idns" }

/-! Basic lemmas about the dictionary embedding. -/

theorem aget_aset (m : Dict) (k v k' : String) :
    aget (aset m k v) k' = if k = k' then some v else aget m k' := by
  induction m with
  | nil => simp [aset, aget]
  | cons p rest ih =>
    obtain ⟨k1, v1⟩ := p
    by_cases h1 : k1 = k
    · subst h1
      by_cases h2 : k1 = k'
      · subst h2; simp [aset, aget]
      · simp [aset, aget, h2]
    · by_cases h2 : k1 = k'
      · subst h2
        have h3 : ¬ k = k1 := fun e => h1 e.symm
        simp [aset, aget, h1, h3]
      · simp [aset, aget, h1, h2, ih]

theorem exists_aget_of_mem_keys (m : Dict) (k : String) (h : k ∈ keysOf m) :
    ∃ v, aget m k = some v := by
  induction m with
  | nil => simp [keysOf] at h
  | cons p rest ih =>
    obtain ⟨k1, v1⟩ := p
    by_cases h1 : k1 = k
    · subst h1; exact ⟨v1, by simp [aget]⟩
    · have h2 : k ∈ keysOf rest := by
        simp only [keysOf, List.map_cons, List.mem_cons] at h
        rcases h with h3 | h3
        · exact absurd h3 (fun e => h1 e.symm)
        · exact h3
      obtain ⟨v, hv⟩ := ih h2
      exact ⟨v, by simp [aget, h1, hv]⟩

theorem keysOf_aset_of_mem (m : Dict) (k v : String) (h : k ∈ keysOf m) :
    keysOf (aset m k v) = keysOf m := by
  induction m with
  | nil => simp [keysOf] at h
  | cons p rest ih =>
    obtain ⟨k1, v1⟩ := p
    by_cases h1 : k1 = k
    · subst h1; simp [aset, keysOf]
    · have h2 : k ∈ keysOf rest := by
        simp only [keysOf, List.map_cons, List.mem_cons] at h
        rcases h with h3 | h3
        · exact absurd h3 (fun e => h1 e.symm)
        · exact h3
      simp [aset, keysOf, h1]
      simpa [keysOf] using ih h2

theorem aset_fresh_append (m : Dict) (k v : String) (h : aget m k = none) :
    aset m k v = m ++ [(k, v)] := by
  induction m with
  | nil => simp [aset]
  | cons p rest ih =>
    obtain ⟨k1, v1⟩ := p
    by_cases h1 : k1 = k
    · subst h1; simp [aget] at h
    · simp [aget, h1] at h
      simp [aset, h1, ih h]

theorem aget_append_right (m m' : Dict) (k : String) (h : aget m k = none) :
    aget (m ++ m') k = aget m' k := by
  induction m with
  | nil => simp
  | cons p rest ih =>
    obtain ⟨k1, v1⟩ := p
    by_cases h1 : k1 = k
    · subst h1; simp [aget] at h
    · simp [aget, h1] at h ⊢
      exact ih h

theorem check_none_sound (d : Dict) (al ns : String)
    (h : NamespaceInfo._check_namespace_alias d al ns = none) :
    aget d al = none ∨ aget d al = some ns := by
  unfold NamespaceInfo._check_namespace_alias at h
  cases hg : aget d al with
  | none => exact Or.inl rfl
  | some cur =>
    rw [hg] at h
    by_cases he : cur = ns
    · subst he; exact Or.inr rfl
    · simp [he] at h

theorem aget_aset_check (d : Dict) (al ns k v : String)
    (hc : NamespaceInfo._check_namespace_alias d al ns = none)
    (hb : aget d k = some v) : aget (aset d al ns) k = some v := by
  rcases check_none_sound d al ns hc with hn | hs
  · have hne : ¬ al = k := by
      intro e; subst e; rw [hb] at hn; cases hn
    rw [aget_aset]; simp [hne, hb]
  · by_cases he : al = k
    · subst he
      rw [hb] at hs
      have : v = ns := by injection hs
      subst this
      rw [aget_aset]; simp
    · rw [aget_aset]; simp [he, hb]

/-! Lemmas about the check-and-insert loops of `_finalize_namespaces`. -/

theorem checkInsertFold_preserves (l : Dict) :
    ∀ d out : Dict, checkInsertFold d l = .ok out →
      ∀ k v, aget d k = some v → aget out k = some v := by
  induction l with
  | nil =>
    intro d out h k v hb
    unfold checkInsertFold at h
    injection h with h'
    subst h'; exact hb
  | cons p rest ih =>
    obtain ⟨al, ns⟩ := p
    intro d out h k v hb
    unfold checkInsertFold at h
    cases hc : NamespaceInfo._check_namespace_alias d al ns with
    | some e => rw [hc] at h; cases h
    | none =>
      rw [hc] at h
      exact ih (aset d al ns) out h k v (aget_aset_check d al ns k v hc hb)

theorem checkInsertFold_entries (l : Dict) :
    ∀ d out : Dict, checkInsertFold d l = .ok out →
      ∀ k v, aget l k = some v → aget out k = some v := by
  induction l with
  | nil => intro d out h k v hb; cases hb
  | cons p rest ih =>
    obtain ⟨al, ns⟩ := p
    intro d out h k v hb
    unfold checkInsertFold at h
    cases hc : NamespaceInfo._check_namespace_alias d al ns with
    | some e => rw [hc] at h; cases h
    | none =>
      rw [hc] at h
      by_cases hk : al = k
      · subst hk
        have hv : v = ns := by simpa [aget] using hb.symm
        subst hv
        have hset : aget (aset d al v) al = some v := by rw [aget_aset]; simp
        exact checkInsertFold_preserves rest (aset d al v) out h al v hset
      · have hb' : aget rest k = some v := by simpa [aget, hk] using hb
        exact ih (aset d al ns) out h k v hb'

theorem checkInsertFold_fresh (l : Dict) :
    ∀ d : Dict, (∀ k, k ∈ keysOf l → aget d k = none) → (keysOf l).Nodup →
      checkInsertFold d l = .ok (d ++ l) := by
  induction l with
  | nil => intro d _ _; simp [checkInsertFold]
  | cons p rest ih =>
    obtain ⟨al, ns⟩ := p
    intro d hfresh hnd
    have hd : aget d al = none := hfresh al (by simp [keysOf])
    have hchk : NamespaceInfo._check_namespace_alias d al ns = none := by
      simp [NamespaceInfo._check_namespace_alias, hd]
    have hnd' : al ∉ keysOf rest ∧ (keysOf rest).Nodup := by
      simpa [keysOf] using hnd
    unfold checkInsertFold
    rw [hchk]
    rw [aset_fresh_append d al ns hd]
    have hfresh' : ∀ k, k ∈ keysOf rest → aget (d ++ [(al, ns)]) k = none := by
      intro k hk
      have hne : ¬ al = k := fun e => hnd'.1 (e ▸ hk)
      rw [aget_append_right d [(al, ns)] k (hfresh k (by simp [keysOf]; right; simpa [keysOf] using hk))]
      simp [aget, hne]
    rw [ih (d ++ [(al, ns)]) hfresh' hnd'.2]
    simp

theorem inputLoop_preserves (dk : List String) (l : Dict) :
    ∀ d out : Dict, inputLoop dk d l = .ok out →
      ∀ k v, aget d k = some v → aget out k = some v := by
  induction l with
  | nil =>
    intro d out h k v hb
    unfold inputLoop at h
    injection h with h'
    subst h'; exact hb
  | cons p rest ih =>
    obtain ⟨al, ns⟩ := p
    intro d out h k v hb
    unfold inputLoop at h
    by_cases hm : ns ∈ dk
    · rw [if_pos hm] at h
      exact ih d out h k v hb
    · rw [if_neg hm] at h
      cases hc : NamespaceInfo._check_namespace_alias d al ns with
      | some e => rw [hc] at h; cases h
      | none =>
        rw [hc] at h
        exact ih (aset d al ns) out h k v (aget_aset_check d al ns k v hc hb)

theorem noAliasLoop_preserves (t : Dict) (l : List String) :
    ∀ d out : Dict, noAliasLoop t d l = .ok out →
      ∀ k v, aget d k = some v → aget out k = some v := by
  induction l with
  | nil =>
    intro d out h k v hb
    unfold noAliasLoop at h
    injection h with h'
    subst h'; exact hb
  | cons ns rest ih =>
    intro d out h k v hb
    unfold noAliasLoop at h
    cases ht : aget t ns with
    | none => rw [ht] at h; cases h
    | some al =>
      rw [ht] at h
      dsimp only at h
      cases hc : NamespaceInfo._check_namespace_alias d al ns with
      | some e => rw [hc] at h; cases h
      | none =>
        rw [hc] at h
        exact ih (aset d al ns) out h k v (aget_aset_check d al ns k v hc hb)

/-! Structural lemmas about `_parse_collected_classes`, `_finalize_namespaces`
and `finalize`. -/

theorem parse_ok_fields (s s1 : NamespaceInfo)
    (h : NamespaceInfo._parse_collected_classes s = .ok s1) :
    s1.input_namespaces = s.input_namespaces ∧
    s1.input_schemalocs = s.input_schemalocs ∧
    s1.finalized_namespaces = s.finalized_namespaces ∧
    s1.finalized_schemalocs = s.finalized_schemalocs := by
  unfold NamespaceInfo._parse_collected_classes at h
  split at h
  · cases h
  · injection h with h'
    subst h'
    exact ⟨rfl, rfl, rfl, rfl⟩

theorem fn_ok_preserves (env : Externals) (s : NamespaceInfo) (nd : Option Dict)
    (s2 : NamespaceInfo) (final : Dict)
    (h : NamespaceInfo._finalize_namespaces env s nd = (s2, .ok final)) :
    ∀ k v, aget (aset _BASELINE_NAMESPACES env.id_ns_alias env.id_ns) k = some v →
      aget final k = some v := by
  intro k v hb
  unfold NamespaceInfo._finalize_namespaces at h
  dsimp only at h
  split at h
  · simp at h
  · rename_i d2 h1
    split at h
    · simp at h
    · rename_i d3 h2
      split at h
      · simp at h
      · rename_i d4 h3
        split at h
        · simp at h
        · rename_i fin h4
          injection h with ha hb2
          injection hb2 with hfin
          have p1 := inputLoop_preserves _ _ _ _ h1 k v hb
          have p2 := noAliasLoop_preserves _ _ _ _ h2 k v p1
          have p3 := checkInsertFold_preserves _ _ _ h3 k v p2
          have p4 := checkInsertFold_entries _ _ _ h4 k v p3
          rwa [hfin] at p4

theorem fn_fst_fields (env : Externals) (s : NamespaceInfo) (nd : Option Dict) :
    ((NamespaceInfo._finalize_namespaces env s nd).1).collected_classes = s.collected_classes ∧
    ((NamespaceInfo._finalize_namespaces env s nd).1).finalized_namespaces = s.finalized_namespaces ∧
    ((NamespaceInfo._finalize_namespaces env s nd).1).finalized_schemalocs = s.finalized_schemalocs := by
  unfold NamespaceInfo._finalize_namespaces
  dsimp only
  split
  · exact ⟨rfl, rfl, rfl⟩
  · split
    · exact ⟨rfl, rfl, rfl⟩
    · split
      · exact ⟨rfl, rfl, rfl⟩
      · split <;> exact ⟨rfl, rfl, rfl⟩

theorem fn_ok_no_alias (env : Externals) (s : NamespaceInfo) (nd : Option Dict)
    (s2 : NamespaceInfo) (final : Dict)
    (h : NamespaceInfo._finalize_namespaces env s nd = (s2, .ok final)) :
    s2.collected_no_alias = none := by
  unfold NamespaceInfo._finalize_namespaces at h
  dsimp only at h
  split at h
  · simp at h
  · rename_i d2 h1
    split at h
    · simp at h
    · rename_i d3 h2
      split at h
      · simp at h
      · rename_i d4 h3
        split at h
        · simp at h
        · rename_i fin h4
          injection h with ha hb2
          rw [← ha]

/-- C4: for every registry state, every caller-supplied override maps and
every environment (hence every sequence of collect calls), if `finalize`
succeeds (raises nothing), the finalized namespace map contains every
baseline prefix as a key and binds the document-identifier prefix to the
document-identifier namespace. -/
theorem C4_baseline_and_id_present (env : Externals) (s : NamespaceInfo)
    (nd sd : Option Dict)
    (h : (NamespaceInfo.finalize env s nd sd).2 = none) :
    ∃ m, ((NamespaceInfo.finalize env s nd sd).1).finalized_namespaces = some m ∧
      (∀ p, p ∈ keysOf _BASELINE_NAMESPACES → (aget m p).isSome = true) ∧
      aget m env.id_ns_alias = some env.id_ns := by
  unfold NamespaceInfo.finalize at h ⊢
  split at h
  · simp at h
  · rename_i s1 hp
    split at h
    · simp at h
    · rename_i s2 fin hfn
      dsimp only
      refine ⟨fin, rfl, ?_, ?_⟩
      · intro p hpmem
        obtain ⟨v, hv⟩ := exists_aget_of_mem_keys _BASELINE_NAMESPACES p hpmem
        by_cases he : env.id_ns_alias = p
        · have hd : aget (aset _BASELINE_NAMESPACES env.id_ns_alias env.id_ns) p = some env.id_ns := by
            rw [aget_aset]; simp [he]
          rw [fn_ok_preserves env s1 nd s2 fin hfn p env.id_ns hd]
          rfl
        · have hd : aget (aset _BASELINE_NAMESPACES env.id_ns_alias env.id_ns) p = some v := by
            rw [aget_aset]; simp [he, hv]
          rw [fn_ok_preserves env s1 nd s2 fin hfn p v hd]
          rfl
      · exact fn_ok_preserves env s1 nd s2 fin hfn env.id_ns_alias env.id_ns
          (by rw [aget_aset]; simp)

theorem C4_baseline_and_id_present_witness :
    ((NamespaceInfo.finalize stdEnv NamespaceInfo.init none none).2 = none) ∧
    (∃ m, ((NamespaceInfo.finalize stdEnv NamespaceInfo.init none none).1).finalized_namespaces = some m ∧
      (∀ p, p ∈ keysOf _BASELINE_NAMESPACES → (aget m p).isSome = true) ∧
      aget m stdEnv.id_ns_alias = some stdEnv.id_ns) :=
  ⟨by decide, C4_baseline_and_id_present stdEnv NamespaceInfo.init none none (by decide)⟩

/-- C6: when `finalize` raises a prefix-conflict error, no partial result is
published: both finalized maps stay `None` (given they were unset before,
as on a fresh registry). -/
theorem C6_no_partial_publish (env : Externals) (s : NamespaceInfo)
    (nd sd : Option Dict) (s' : NamespaceInfo) (e : DuplicatePrefixError)
    (hN : s.finalized_namespaces = none) (hS : s.finalized_schemalocs = none)
    (h : NamespaceInfo.finalize env s nd sd = (s', some (.dup e))) :
    s'.finalized_namespaces = none ∧ s'.finalized_schemalocs = none := by
  unfold NamespaceInfo.finalize at h
  split at h
  · injection h with h1 h2
    subst h1
    exact ⟨hN, hS⟩
  · rename_i s1 hp
    split at h
    · rename_i s2 e2 hfn
      injection h with h1 h2
      subst h1
      have hfld := fn_fst_fields env s1 nd
      have hpf := parse_ok_fields s s1 hp
      rw [hfn] at hfld
      dsimp only at hfld
      exact ⟨by rw [hfld.2.1, hpf.2.2.1, hN], by rw [hfld.2.2, hpf.2.2.2, hS]⟩
    · injection h with h1 h2
      cases h2

theorem C6_no_partial_publish_witness :
    (r6c.finalized_namespaces = none) ∧ (r6c.finalized_schemalocs = none) ∧
    (NamespaceInfo.finalize stdEnv r6c none none =
      (r6c, some (.dup { pfx := "cybox", source_ns := ["http://cybox.mitre.org/cybox-2"],
                         dest_ns := "http://another.example.net" }))) ∧
    (r6c.finalized_namespaces = none ∧ r6c.finalized_schemalocs = none) :=
  ⟨by decide, by decide, by decide,
   C6_no_partial_publish stdEnv r6c none none r6c
     { pfx := "cybox", source_ns := ["http://cybox.mitre.org/cybox-2"],
       dest_ns := "http://another.example.net" }
     (by decide) (by decide) (by decide)⟩

/-- C7: after a successful `finalize`, any second `finalize` call is
rejected (it raises `KeyError(None)` at the unguarded
`self._collected_namespaces[None]` access in `_parse_collected_classes`)
and leaves the whole state — in particular both previously computed
finalized maps — unchanged. -/
theorem C7_second_finalize_rejected (env env2 : Externals) (s : NamespaceInfo)
    (nd sd nd2 sd2 : Option Dict) (s1 : NamespaceInfo)
    (h : NamespaceInfo.finalize env s nd sd = (s1, none)) :
    NamespaceInfo.finalize env2 s1 nd2 sd2 = (s1, some (.keyError none)) := by
  have hna : s1.collected_no_alias = none := by
    unfold NamespaceInfo.finalize at h
    split at h
    · injection h with h1 h2
      cases h2
    · rename_i st1 hp
      split at h
      · injection h with h1 h2
        cases h2
      · rename_i s2 fin hfn
        injection h with h1 h2
        rw [← h1]
        exact fn_ok_no_alias env st1 nd s2 fin hfn
  unfold NamespaceInfo.finalize
  rw [show NamespaceInfo._parse_collected_classes s1 = .error (.keyError none) by
    unfold NamespaceInfo._parse_collected_classes
    rw [hna]]

theorem C7_second_finalize_rejected_witness :
    (NamespaceInfo.finalize stdEnv NamespaceInfo.init none none =
      ((NamespaceInfo.finalize stdEnv NamespaceInfo.init none none).1, none)) ∧
    (NamespaceInfo.finalize stdEnv
        ((NamespaceInfo.finalize stdEnv NamespaceInfo.init none none).1) none none =
      ((NamespaceInfo.finalize stdEnv NamespaceInfo.init none none).1,
       some (.keyError none))) :=
  ⟨by decide,
   C7_second_finalize_rejected stdEnv stdEnv NamespaceInfo.init none none none none
     ((NamespaceInfo.finalize stdEnv NamespaceInfo.init none none).1) (by decide)⟩

/-! Lemmas about `dict.update`, for the registry-merge claim. -/

theorem aget_updD_not_mem (o : Dict) :
    ∀ (m : Dict) (k : String), k ∉ keysOf o → aget (updD m o) k = aget m k := by
  induction o with
  | nil => intro m k _; rfl
  | cons p rest ih =>
    obtain ⟨k1, v1⟩ := p
    intro m k hk
    have h1 : ¬ k1 = k := fun e => hk (by subst e; simp [keysOf])
    have h2 : k ∉ keysOf rest := fun hh => hk (by
      simp only [keysOf, List.map_cons, List.mem_cons]
      exact Or.inr hh)
    show aget (updD (aset m k1 v1) rest) k = aget m k
    rw [ih (aset m k1 v1) k h2, aget_aset]
    simp [h1]

theorem aget_updD (o : Dict) :
    ∀ (m : Dict) (k : String), (keysOf o).Nodup →
      aget (updD m o) k =
        match aget o k with
        | some v => some v
        | none => aget m k := by
  induction o with
  | nil => intro m k _; rfl
  | cons p rest ih =>
    obtain ⟨k1, v1⟩ := p
    intro m k hnd
    have hnd' : k1 ∉ keysOf rest ∧ (keysOf rest).Nodup := by simpa [keysOf] using hnd
    show aget (updD (aset m k1 v1) rest) k = _
    by_cases h1 : k1 = k
    · subst h1
      rw [aget_updD_not_mem rest (aset m k1 v1) k1 hnd'.1, aget_aset]
      simp [aget]
    · rw [ih (aset m k1 v1) k hnd'.2, aget_aset]
      simp [aget, h1]

/-- C5 counterexample: merging two unfinalized registries does not union the
visited-types set (the argument's visited type is lost) and does not union
the unaliased buckets (the receiver's bucket is replaced wholesale), so
`update` is not the union of all four collection maps. -/
theorem C5_update_not_union_counterexample :
    K2ex ∈ r2ex.collected_classes ∧
    K2ex ∉ (NamespaceInfo.update r1ex r2ex).collected_classes ∧
    "http://a.example.org" ∈ (r1ex.collected_no_alias.getD []) ∧
    "http://a.example.org" ∉ ((NamespaceInfo.update r1ex r2ex).collected_no_alias.getD []) := by
  decide

/-- C5 amended: `update` right-biasedly unions the aliased collected map,
the input namespace map and the input schema-location map; the argument's
unaliased bucket replaces the receiver's when present (no union); the
visited-types set and the finalized maps of the receiver are left
unchanged. -/
theorem C5_update_partial_union (r1 r2 : NamespaceInfo)
    (h1 : (keysOf r2.collected_namespaces).Nodup)
    (h2 : (keysOf r2.input_namespaces).Nodup)
    (h3 : (keysOf r2.input_schemalocs).Nodup) :
    (∀ k, aget (NamespaceInfo.update r1 r2).collected_namespaces k =
      match aget r2.collected_namespaces k with
      | some v => some v
      | none => aget r1.collected_namespaces k) ∧
    (∀ k, aget (NamespaceInfo.update r1 r2).input_namespaces k =
      match aget r2.input_namespaces k with
      | some v => some v
      | none => aget r1.input_namespaces k) ∧
    (∀ k, aget (NamespaceInfo.update r1 r2).input_schemalocs k =
      match aget r2.input_schemalocs k with
      | some v => some v
      | none => aget r1.input_schemalocs k) ∧
    ((NamespaceInfo.update r1 r2).collected_no_alias =
      match r2.collected_no_alias with
      | some b => some b
      | none => r1.collected_no_alias) ∧
    (NamespaceInfo.update r1 r2).collected_classes = r1.collected_classes ∧
    (NamespaceInfo.update r1 r2).finalized_namespaces = r1.finalized_namespaces ∧
    (NamespaceInfo.update r1 r2).finalized_schemalocs = r1.finalized_schemalocs := by
  refine ⟨fun k => ?_, fun k => ?_, fun k => ?_, rfl, rfl, rfl, rfl⟩
  · exact aget_updD r2.collected_namespaces r1.collected_namespaces k h1
  · exact aget_updD r2.input_namespaces r1.input_namespaces k h2
  · exact aget_updD r2.input_schemalocs r1.input_schemalocs k h3

theorem C5_update_partial_union_witness :
    ((keysOf r2ex.collected_namespaces).Nodup ∧
     (keysOf r2ex.input_namespaces).Nodup ∧
     (keysOf r2ex.input_schemalocs).Nodup) ∧
    ((∀ k, aget (NamespaceInfo.update r1ex r2ex).collected_namespaces k =
      match aget r2ex.collected_namespaces k with
      | some v => some v
      | none => aget r1ex.collected_namespaces k) ∧
    (∀ k, aget (NamespaceInfo.update r1ex r2ex).input_namespaces k =
      match aget r2ex.input_namespaces k with
      | some v => some v
      | none => aget r1ex.input_namespaces k) ∧
    (∀ k, aget (NamespaceInfo.update r1ex r2ex).input_schemalocs k =
      match aget r2ex.input_schemalocs k with
      | some v => some v
      | none => aget r1ex.input_schemalocs k) ∧
    ((NamespaceInfo.update r1ex r2ex).collected_no_alias =
      match r2ex.collected_no_alias with
      | some b => some b
      | none => r1ex.collected_no_alias) ∧
    (NamespaceInfo.update r1ex r2ex).collected_classes = r1ex.collected_classes ∧
    (NamespaceInfo.update r1ex r2ex).finalized_namespaces = r1ex.finalized_namespaces ∧
    (NamespaceInfo.update r1ex r2ex).finalized_schemalocs = r1ex.finalized_schemalocs) :=
  ⟨⟨by decide, by decide, by decide⟩,
   C5_update_partial_union r1ex r2ex (by decide) (by decide) (by decide)⟩

/-- On the empty registry `_finalize_namespaces` succeeds and returns exactly
the seeded map: the baseline dict overwritten in place with the
document-identifier pair (provided the seeded map has duplicate-free keys). -/
theorem fn_init (env : Externals)
    (hnodup : (keysOf (aset _BASELINE_NAMESPACES env.id_ns_alias env.id_ns)).Nodup) :
    NamespaceInfo._finalize_namespaces env NamespaceInfo.init none =
      ({ NamespaceInfo.init with collected_no_alias := none },
       .ok (aset _BASELINE_NAMESPACES env.id_ns_alias env.id_ns)) := by
  have hov : checkInsertFold [] (aset _BASELINE_NAMESPACES env.id_ns_alias env.id_ns) =
      .ok (aset _BASELINE_NAMESPACES env.id_ns_alias env.id_ns) := by
    have h0 := checkInsertFold_fresh (aset _BASELINE_NAMESPACES env.id_ns_alias env.id_ns)
      [] (fun k _ => rfl) hnodup
    simpa using h0
  unfold NamespaceInfo._finalize_namespaces
  show (match checkInsertFold [] (aset _BASELINE_NAMESPACES env.id_ns_alias env.id_ns) with
        | Except.error e =>
            ({ NamespaceInfo.init with collected_no_alias := none },
             Except.error (FinalizeErr.dup e))
        | Except.ok final =>
            ({ NamespaceInfo.init with collected_no_alias := none },
             Except.ok final)) =
      ({ NamespaceInfo.init with collected_no_alias := none },
       Except.ok (aset _BASELINE_NAMESPACES env.id_ns_alias env.id_ns))
  rw [hov]

/-- C10: the document-identifier pair is seeded into the working map by a
plain assignment with no conflict check: when the identifier prefix equals
a baseline prefix while the identifier namespace differs from that
baseline namespace, `finalize` raises no PrefixConflict (on an otherwise
empty registry it succeeds outright) and the identifier binding silently
replaces the baseline binding for that prefix in the finalized map. -/
theorem C10_id_seed_overwrites_baseline (env : Externals) (a n : String)
    (ha : a ∈ keysOf _BASELINE_NAMESPACES)
    (hn : aget _BASELINE_NAMESPACES a ≠ some n)
    (hea : env.id_ns_alias = a) (hen : env.id_ns = n) :
    (NamespaceInfo.finalize env NamespaceInfo.init none none).2 = none ∧
    aget (((NamespaceInfo.finalize env NamespaceInfo.init none none).1).finalized_namespaces.getD []) a = some n ∧
    aget (((NamespaceInfo.finalize env NamespaceInfo.init none none).1).finalized_namespaces.getD []) a ≠
      aget _BASELINE_NAMESPACES a := by
  subst hea
  subst hen
  have hnodup : (keysOf (aset _BASELINE_NAMESPACES env.id_ns_alias env.id_ns)).Nodup := by
    rw [keysOf_aset_of_mem _BASELINE_NAMESPACES env.id_ns_alias env.id_ns ha]
    decide
  have hp : NamespaceInfo._parse_collected_classes NamespaceInfo.init = .ok NamespaceInfo.init := rfl
  have hfin : (NamespaceInfo.finalize env NamespaceInfo.init none none).2 = none ∧
      ((NamespaceInfo.finalize env NamespaceInfo.init none none).1).finalized_namespaces =
        some (aset _BASELINE_NAMESPACES env.id_ns_alias env.id_ns) := by
    unfold NamespaceInfo.finalize
    rw [hp]
    dsimp only
    rw [fn_init env hnodup]
    exact ⟨rfl, rfl⟩
  refine ⟨hfin.1, ?_, ?_⟩
  · rw [hfin.2]
    show aget (aset _BASELINE_NAMESPACES env.id_ns_alias env.id_ns) env.id_ns_alias = some env.id_ns
    rw [aget_aset]
    simp
  · rw [hfin.2]
    show aget (aset _BASELINE_NAMESPACES env.id_ns_alias env.id_ns) env.id_ns_alias ≠
      aget _BASELINE_NAMESPACES env.id_ns_alias
    rw [aget_aset]
    simp only [if_pos rfl]
    exact fun e => hn e.symm

theorem C10_id_seed_overwrites_baseline_witness :
    ("stix" ∈ keysOf _BASELINE_NAMESPACES ∧
     aget _BASELINE_NAMESPACES "stix" ≠ some "http://custom.example.org/idns" ∧
     env10.id_ns_alias = "stix" ∧ env10.id_ns = "http://custom.example.org/idns") ∧
    ((NamespaceInfo.finalize env10 NamespaceInfo.init none none).2 = none ∧
     aget (((NamespaceInfo.finalize env10 NamespaceInfo.init none none).1).finalized_namespaces.getD []) "stix" =
       some "http://custom.example.org/idns" ∧
     aget (((NamespaceInfo.finalize env10 NamespaceInfo.init none none).1).finalized_namespaces.getD []) "stix" ≠
       aget _BASELINE_NAMESPACES "stix") :=
  ⟨⟨by decide, by decide, rfl, rfl⟩,
   C10_id_seed_overwrites_baseline env10 "stix" "http://custom.example.org/idns"
     (by decide) (by decide) rfl rfl⟩

/-- C1: evaluation of `finalize` at a prefix conflict (input binds `stix` to
a foreign namespace).  The `DuplicatePrefixError` propagates to the caller
and carries the prefix and the new namespace URI directly, but its
`source_ns` attribute carries the existing namespace URI wrapped in a
1-tuple (the trailing comma in `DuplicatePrefixError.__init__`), not the
URI itself. -/
theorem C1_conflict_error_payload :
    NamespaceInfo.finalize stdEnv r1c none none =
      (r1c, some (.dup { pfx := "stix",
                         source_ns := ["http://stix.mitre.org/stix-1"],
                         dest_ns := "http://other.example.org" })) := by
  decide

/-- C2: evaluation showing the default schema-location table is not applied.
The core STIX namespace is among the finalized namespaces (bound to the
baseline prefix `stix`) and has an entry in the default schema-location
table, yet the conflicting location supplied via the collected input
schema-locations survives into the finalized schema-location map: the
schema-location loop iterates the keys of the finalized namespace map,
which are prefixes, and looks them up in the URI-keyed default table. -/
theorem C2_default_schemaloc_not_applied :
    (NamespaceInfo.finalize stdEnv r2c none none).2 = none ∧
    aget (((NamespaceInfo.finalize stdEnv r2c none none).1).finalized_namespaces.getD []) "stix" =
      some "http://stix.mitre.org/stix-1" ∧
    aget stdEnv.DEFAULT_STIX_SCHEMALOCATIONS "http://stix.mitre.org/stix-1" =
      some "http://stix.mitre.org/XMLSchema/core/1.1.1/stix_core.xsd" ∧
    aget (((NamespaceInfo.finalize stdEnv r2c none none).1).finalized_schemalocs.getD [])
        "http://stix.mitre.org/stix-1" =
      some "http://bogus.example.org/bogus.xsd" := by
  decide

/-- C3: evaluation of `finalize` when the parsed input declares the
slash-terminated example namespace under the prefix the identifier
namespace uses for the non-slash form.  The compatibility fix does not
fire (it looks both dictionaries up by namespace key, but the working map
is keyed by prefix), so instead of the slash-terminated entry being
dropped, `finalize` raises a `DuplicatePrefixError` on `example`. -/
theorem C3_example_fix_conflict :
    aget r3c.input_namespaces "example" = some "http://example.com/" ∧
    stdEnv.id_ns_alias = "example" ∧
    stdEnv.id_ns = "http://example.com" ∧
    NamespaceInfo.finalize stdEnv r3c none none =
      (r3c, some (.dup { pfx := "example",
                         source_ns := ["http://example.com"],
                         dest_ns := "http://example.com/" })) := by
  decide

/-- C9: a registry whose only collected type declares a home namespace with
no explicit prefix and no two-part qualified name, where that namespace is
absent from the default namespace-to-prefix table: `finalize` fails with
the unhandled key-lookup error from `DEFAULT_STIX_NAMESPACES[ns]`, not
with a `DuplicatePrefixError`. -/
theorem C9_unhandled_keyerror :
    aget stdEnv.DEFAULT_STIX_NAMESPACES "http://custom.example.org/ns" = none ∧
    (NamespaceInfo.finalize stdEnv r9 none none).2 =
      some (.keyError (some "http://custom.example.org/ns")) := by
  decide

/-- Rendering of the empty-registry finalized map by the source's
`get_xmlns_str`: lines `xmlns:namespace="prefix"` ordered by prefix. -/
theorem hC8a :
    NamespaceParser.get_xmlns_str
        (((NamespaceInfo.finalize stdEnv NamespaceInfo.init none none).1).finalized_namespaces.getD []) =
      "xmlns:http://cybox.mitre.org/cybox-2=\"cybox\"\n\txmlns:http://cybox.mitre.org/common-2=\"cyboxCommon\"\n\txmlns:http://cybox.mitre.org/default_vocabularies-2=\"cyboxVocabs\"\n\txmlns:http://example.com=\"example\"\n\txmlns:http://stix.mitre.org/stix-1=\"stix\"\n\txmlns:http://stix.mitre.org/common-1=\"stixCommon\"\n\txmlns:http://stix.mitre.org/default_vocabularies-1=\"stixVocabs\"\n\txmlns:http://www.w3.org/2001/XMLSchema-instance=\"xsi\"" := by
  rfl

/-- Rendering of the same map by the spec-modelled renderer:
lines `xmlns:prefix="namespace"` ordered by namespace URI. -/
theorem hC8b :
    spec_get_xmlns_str
        (((NamespaceInfo.finalize stdEnv NamespaceInfo.init none none).1).finalized_namespaces.getD []) =
      "xmlns:cyboxCommon=\"http://cybox.mitre.org/common-2\"\n\txmlns:cybox=\"http://cybox.mitre.org/cybox-2\"\n\txmlns:cyboxVocabs=\"http://cybox.mitre.org/default_vocabularies-2\"\n\txmlns:example=\"http://example.com\"\n\txmlns:stixCommon=\"http://stix.mitre.org/common-1\"\n\txmlns:stixVocabs=\"http://stix.mitre.org/default_vocabularies-1\"\n\txmlns:stix=\"http://stix.mitre.org/stix-1\"\n\txmlns:xsi=\"http://www.w3.org/2001/XMLSchema-instance\"" := by
  rfl

/-- C8: rendering the finalized namespace map (whose keys are prefixes and
values are namespace URIs) with `get_xmlns_str` yields lines of the form
`xmlns:namespace="prefix"` ordered by prefix — the positions are swapped
relative to the spec's `xmlns:prefix="namespace"` sorted by namespace URI
(rendered here by the spec-modelled `spec_get_xmlns_str` for contrast). -/
theorem C8_xmlns_render_swapped :
    (NamespaceInfo.finalize stdEnv NamespaceInfo.init none none).2 = none ∧
    NamespaceParser.get_xmlns_str
        (((NamespaceInfo.finalize stdEnv NamespaceInfo.init none none).1).finalized_namespaces.getD []) =
      "xmlns:http://cybox.mitre.org/cybox-2=\"cybox\"\n\txmlns:http://cybox.mitre.org/common-2=\"cyboxCommon\"\n\txmlns:http://cybox.mitre.org/default_vocabularies-2=\"cyboxVocabs\"\n\txmlns:http://example.com=\"example\"\n\txmlns:http://stix.mitre.org/stix-1=\"stix\"\n\txmlns:http://stix.mitre.org/common-1=\"stixCommon\"\n\txmlns:http://stix.mitre.org/default_vocabularies-1=\"stixVocabs\"\n\txmlns:http://www.w3.org/2001/XMLSchema-instance=\"xsi\"" ∧
    spec_get_xmlns_str
        (((NamespaceInfo.finalize stdEnv NamespaceInfo.init none none).1).finalized_namespaces.getD []) =
      "xmlns:cyboxCommon=\"http://cybox.mitre.org/common-2\"\n\txmlns:cybox=\"http://cybox.mitre.org/cybox-2\"\n\txmlns:cyboxVocabs=\"http://cybox.mitre.org/default_vocabularies-2\"\n\txmlns:example=\"http://example.com\"\n\txmlns:stixCommon=\"http://stix.mitre.org/common-1\"\n\txmlns:stixVocabs=\"http://stix.mitre.org/default_vocabularies-1\"\n\txmlns:stix=\"http://stix.mitre.org/stix-1\"\n\txmlns:xsi=\"http://www.w3.org/2001/XMLSchema-instance\"" ∧
    NamespaceParser.get_xmlns_str
        (((NamespaceInfo.finalize stdEnv NamespaceInfo.init none none).1).finalized_namespaces.getD []) ≠
      spec_get_xmlns_str
        (((NamespaceInfo.finalize stdEnv NamespaceInfo.init none none).1).finalized_namespaces.getD []) := by
  refine ⟨by decide, hC8a, hC8b, ?_⟩
  rw [hC8a, hC8b]
  decide
